import Mathlib

/-!
Verification development for the FitTrack backend (a small HTTP service
for food/exercise search and a food diary with per-day nutrition totals).

The Python source (`src/main.py`) is shallowly embedded below:
* numeric values are modelled as exact rationals (ℚ);
* Python `round(x, 1)` is modelled by `round1` (round half to even at one
  decimal place, which is the rounding rule of Python's built-in `round`);
* the persistent store (module `database`, not part of the sources) is
  modelled from the specification as an insertion-ordered list of documents
  with store-assigned integer identifiers;
* HTTP handlers that may raise `HTTPException` return `Except HTTPError α`;
* the `try/except requests.RequestException` blocks are modelled by an
  explicit three-way outcome (`TryOutcome`): normal value, `HTTPException`
  (not caught by the handler, hence propagated), or `RequestException`
  (caught, falls through to the sample-data path).
-/

/-- Round half to even: round a rational to the nearest integer, ties going
to the even integer.  This is the rounding rule used by Python's `round`. -/
def rhalfEven (x : ℚ) : ℤ :=
  if x - (⌊x⌋ : ℚ) < 1/2 then ⌊x⌋
  else if 1/2 < x - (⌊x⌋ : ℚ) then ⌊x⌋ + 1
  else if ⌊x⌋ % 2 = 0 then ⌊x⌋ else ⌊x⌋ + 1

/-- Model of Python `round(x, 1)`: round to one decimal place, half to even. -/
def round1 (x : ℚ) : ℚ := (rhalfEven (10 * x) : ℚ) / 10

/-- Model of Python's substring test `pat in hay` on lists of characters. -/
def containsSub : List Char → List Char → Bool
  | [], pat => pat.isEmpty
  | c :: t, pat => pat.isPrefixOf (c :: t) || containsSub t pat

/-- Model of Python's `pat in hay` on strings (substring containment). -/
def strContains (hay pat : String) : Bool := containsSub hay.data pat.data

/-- Model of Python's `str.lower()`: character-wise lowercasing (ASCII,
which covers all sample data of this service). -/
def strLower (s : String) : String := String.mk (s.data.map Char.toLower)

/-! ## Data model and diary store

The store documents are schemaless (Mongo-style): the four macro fields may
be absent, modelled by `Option ℚ` with `none` for a missing key, matching
`e.get("calories", 0)` in `get_day_summary`. -/

/-- A `foodentry` document as it lives in the store (`src/main.py` writes
documents of this shape; arbitrary documents may be missing macro keys). -/
structure FoodDoc where
  food_name : String
  calories : Option ℚ
  protein_g : Option ℚ
  carbohydrates_total_g : Option ℚ
  fat_total_g : Option ℚ
  day : String
deriving DecidableEq, Repr

/-- A stored document together with its store-assigned identifier
(`_id` in Mongo terms). -/
structure StoredEntry where
  oid : Nat
  food_name : String
  calories : Option ℚ
  protein_g : Option ℚ
  carbohydrates_total_g : Option ℚ
  fat_total_g : Option ℚ
  day : String
deriving DecidableEq, Repr

/-- Modelled from the spec: the persistent `foodentry` collection backing
module `database` (`db`, `create_document`, `get_documents`), which is not
among the sources.  Per the spec the store keeps records "keyed by nothing
but insertion order" with an "opaque store-assigned identifier": an ordered
list of documents plus a counter for the next fresh identifier. -/
structure Store where
  docs : List StoredEntry
  nextId : Nat
deriving DecidableEq, Repr

/-- Modelled from the spec: `create_document("foodentry", doc)` inserts one
document at the end of the collection and returns its store-assigned
identifier. -/
def create_document (s : Store) (doc : FoodDoc) : Nat × Store :=
  (s.nextId,
   { docs := s.docs ++ [{ oid := s.nextId
                          food_name := doc.food_name
                          calories := doc.calories
                          protein_g := doc.protein_g
                          carbohydrates_total_g := doc.carbohydrates_total_g
                          fat_total_g := doc.fat_total_g
                          day := doc.day }]
     nextId := s.nextId + 1 })

/-- Modelled from the spec: `get_documents("foodentry", {"day": d}, limit=None)`
reads all documents whose `day` field equals `d` (exact string match), in
insertion order, without modifying the store. -/
def get_documents (s : Store) (d : String) : List StoredEntry × Store :=
  (s.docs.filter (fun e => e.day = d), s)

/-- One entry of a day summary as returned to the caller: the stored
document with the identifier converted to a display string
(`e["_id"] = str(e["_id"])`). -/
structure OutEntry where
  oid : String
  food_name : String
  calories : Option ℚ
  protein_g : Option ℚ
  carbohydrates_total_g : Option ℚ
  fat_total_g : Option ℚ
  day : String
deriving DecidableEq, Repr

/-- The four macro totals of a day summary. -/
structure Totals where
  calories : ℚ
  protein_g : ℚ
  carbohydrates_total_g : ℚ
  fat_total_g : ℚ
deriving DecidableEq, Repr

/-- The value returned by `get_day_summary`. -/
structure DaySummary where
  day : String
  totals : Totals
  entries : List OutEntry
deriving DecidableEq, Repr

def StoredEntry.toOut (e : StoredEntry) : OutEntry :=
  { oid := toString e.oid
    food_name := e.food_name
    calories := e.calories
    protein_g := e.protein_g
    carbohydrates_total_g := e.carbohydrates_total_g
    fat_total_g := e.fat_total_g
    day := e.day }

/-- Embedding of `get_day_summary` (`src/main.py:183-203`): fetch the
entries of day `d`, sum the four macro fields with missing keys counting
as 0, round each sum to one decimal, stringify identifiers. -/
def get_day_summary (d : String) (s : Store) : DaySummary × Store :=
  let (entries, s1) := get_documents s d
  let total_cal := (entries.map (fun e => e.calories.getD 0)).sum
  let total_p := (entries.map (fun e => e.protein_g.getD 0)).sum
  let total_c := (entries.map (fun e => e.carbohydrates_total_g.getD 0)).sum
  let total_f := (entries.map (fun e => e.fat_total_g.getD 0)).sum
  ({ day := d
     totals := { calories := round1 total_cal
                 protein_g := round1 total_p
                 carbohydrates_total_g := round1 total_c
                 fat_total_g := round1 total_f }
     entries := entries.map StoredEntry.toOut }, s1)

/-- The `DiaryFoodCreate` request body after validation
(`src/main.py:33-39`): `food_name` and `calories` are required fields,
the other three macros default to 0, `consumed_at` is optional. -/
structure DiaryFoodCreate where
  food_name : String
  calories : ℚ
  protein_g : ℚ
  carbohydrates_total_g : ℚ
  fat_total_g : ℚ
  consumed_at : Option String
deriving DecidableEq, Repr

/-- A raw diary-write request body before validation: every field may be
absent. -/
structure RawDiaryFood where
  food_name : Option String
  calories : Option ℚ
  protein_g : Option ℚ
  carbohydrates_total_g : Option ℚ
  fat_total_g : Option ℚ
  consumed_at : Option String
deriving DecidableEq, Repr

/-- Embedding of the pydantic validation of `DiaryFoodCreate`: fields
without a default (`food_name`, `calories`) must be present or the request
is rejected (`none`); `protein_g`, `carbohydrates_total_g`, `fat_total_g`
default to 0 and `consumed_at` to `None` when absent. -/
def parseDiaryFoodCreate (r : RawDiaryFood) : Option DiaryFoodCreate :=
  match r.food_name, r.calories with
  | some n, some c =>
      some { food_name := n
             calories := c
             protein_g := r.protein_g.getD 0
             carbohydrates_total_g := r.carbohydrates_total_g.getD 0
             fat_total_g := r.fat_total_g.getD 0
             consumed_at := r.consumed_at }
  | _, _ => none

/-- Result of the diary-write endpoint: the inserted identifier and the
recomputed summary. -/
structure AddResult where
  inserted_id : Nat
  summary : DaySummary
deriving DecidableEq, Repr

/-- Embedding of `add_food_to_diary` (`src/main.py:121-135`).  `today` is
`date.today().isoformat()`; `item.consumed_at or today` means an absent
*or empty* `consumed_at` falls back to today's date (Python truthiness). -/
def add_food_to_diary (today : String) (item : DiaryFoodCreate) (s : Store) :
    AddResult × Store :=
  let day := match item.consumed_at with
             | some d => if d = "" then today else d
             | none => today
  let doc : FoodDoc :=
    { food_name := item.food_name
      calories := some item.calories
      protein_g := some item.protein_g
      carbohydrates_total_g := some item.carbohydrates_total_g
      fat_total_g := some item.fat_total_g
      day := day }
  let (inserted_id, s1) := create_document s doc
  let (summary, s2) := get_day_summary day s1
  ({ inserted_id := inserted_id, summary := summary }, s2)

/-! ## Search adapters -/

/-- The error value of a raised `HTTPException`. -/
structure HTTPError where
  status_code : Nat
  detail : String
deriving DecidableEq, Repr

/-- Python truthiness of an optional string (`os.getenv` result): truthy
iff present and non-empty. -/
def pyTruthy (o : Option String) : Bool := !(o.getD "" == "")

/-- Outcome of a `try` block guarded by `except requests.RequestException`:
a normal value, a raised `HTTPException` (which that handler does NOT
catch), or a raised `requests.RequestException` (which it catches). -/
inductive TryOutcome (α : Type) where
  | ok (a : α)
  | httpExc (e : HTTPError)
  | reqExc
deriving DecidableEq, Repr

/-- One food object of a Nutritionix response; every key may be absent. -/
structure NutriFood where
  food_name : Option String
  nf_calories : Option ℚ
  nf_protein : Option ℚ
  nf_total_carbohydrate : Option ℚ
  nf_total_fat : Option ℚ
  serving_qty : Option ℚ
  serving_unit : Option String
deriving DecidableEq, Repr

/-- Outcome of the outbound `requests.post` call to Nutritionix: either a
response (status code, body text, parsed `foods` array) or a transport
failure (timeout, connection error — a `requests.RequestException`). -/
inductive NutriUpstream where
  | response (status : Nat) (text : String) (foods : List NutriFood)
  | transportError
deriving DecidableEq, Repr

/-- An item of the food-search response.  Sample items carry no serving
keys, which is modelled by `none` defaults. -/
structure FoodOut where
  food_name : Option String
  calories : ℚ
  protein_g : ℚ
  carbohydrates_total_g : ℚ
  fat_total_g : ℚ
  serving_qty : Option ℚ := none
  serving_unit : Option String := none
deriving DecidableEq, Repr

/-- The fixed 3-item sample list of `search_food` (`src/main.py:93-115`). -/
def foodSample : List FoodOut :=
  [ { food_name := some "Petto di pollo", calories := 165, protein_g := 31,
      carbohydrates_total_g := 0, fat_total_g := 36/10 },
    { food_name := some "Riso basmati (100g)", calories := 130, protein_g := 27/10,
      carbohydrates_total_g := 28, fat_total_g := 3/10 },
    { food_name := some "Avocado (1/2)", calories := 120, protein_g := 15/10,
      carbohydrates_total_g := 6, fat_total_g := 10 } ]

/-- The local fallback of `search_food` (`src/main.py:116-118`): filter the
sample list by case-insensitive substring match on `food_name`; if nothing
matches, return the whole sample list (`filtered or sample`). -/
def foodFallback (q : String) : List FoodOut :=
  let filtered := foodSample.filter
    (fun s => strContains (strLower (s.food_name.getD "")) (strLower q))
  if filtered = [] then foodSample else filtered

/-- The `try` block of `search_food` (`src/main.py:62-90`): a non-200
response raises `HTTPException(502, ...)` with the first 120 characters of
the upstream body; a 200 response is mapped field-wise with missing
numerics defaulting to 0; a transport failure is a `RequestException`. -/
def searchFoodTryBody (q : String) (up : NutriUpstream) :
    TryOutcome (List FoodOut) :=
  match up with
  | .transportError => .reqExc
  | .response status text foods =>
      if status ≠ 200 then
        .httpExc { status_code := 502
                   detail := "Nutritionix error: " ++ text.take 120 }
      else
        .ok (foods.map (fun f =>
          { food_name := f.food_name
            calories := f.nf_calories.getD 0
            protein_g := f.nf_protein.getD 0
            carbohydrates_total_g := f.nf_total_carbohydrate.getD 0
            fat_total_g := f.nf_total_fat.getD 0
            serving_qty := f.serving_qty
            serving_unit := f.serving_unit }))

/-- Embedding of `search_food` (`src/main.py:54-118`).  `q` is ignored by
the fallback condition (the route requires `min_length=1`); the credentials
path is taken iff both env values are truthy; an `HTTPException` raised in
the `try` block is not caught by `except requests.RequestException` and
propagates to the caller. -/
def search_food (app_id app_key : Option String) (q : String)
    (up : NutriUpstream) : Except HTTPError (List FoodOut) :=
  if pyTruthy app_id && pyTruthy app_key then
    match searchFoodTryBody q up with
    | .ok items => .ok items
    | .httpExc e => .error e
    | .reqExc => .ok (foodFallback q)
  else
    .ok (foodFallback q)

/-- One object of an ExerciseDB response; every key may be absent. -/
structure ExFood where
  name : Option String
  target : Option String
  equipment : Option String
  bodyPart : Option String
  gifUrl : Option String
deriving DecidableEq, Repr

/-- Outcome of the outbound `requests.get` call to ExerciseDB. -/
inductive ExUpstream where
  | response (status : Nat) (text : String) (data : List ExFood)
  | transportError
deriving DecidableEq, Repr

/-- An item of the exercise-search response; sample items have no `gifUrl`
key. -/
structure ExOut where
  name : Option String
  target : Option String
  equipment : Option String
  bodyPart : Option String
  gifUrl : Option String := none
deriving DecidableEq, Repr

/-- The fixed 3-item sample list of `search_exercises`
(`src/main.py:174-178`). -/
def exerciseSample : List ExOut :=
  [ { name := some "Push-up", target := some "petto",
      equipment := some "body weight", bodyPart := some "torace" },
    { name := some "Squat", target := some "gambe",
      equipment := some "body weight", bodyPart := some "gambe" },
    { name := some "Plank", target := some "core",
      equipment := some "tappetino", bodyPart := some "addome" } ]

/-- The local fallback of `search_exercises` (`src/main.py:179`):
`filtered = [...] if q else sample` — full sample list on an empty query,
otherwise the case-insensitive substring filter on `name`, with no
recovery to the full list when nothing matches. -/
def exerciseFallback (q : String) : List ExOut :=
  if q = "" then exerciseSample
  else exerciseSample.filter
    (fun s => strContains (strLower (s.name.getD "")) (strLower q))

/-- The `try` block of `search_exercises` (`src/main.py:149-171`). -/
def searchExercisesTryBody (q : String) (up : ExUpstream) :
    TryOutcome (List ExOut) :=
  match up with
  | .transportError => .reqExc
  | .response status text data =>
      if status ≠ 200 then
        .httpExc { status_code := 502
                   detail := "ExerciseDB error: " ++ text.take 120 }
      else
        .ok (data.map (fun it =>
          { name := it.name
            target := it.target
            equipment := it.equipment
            bodyPart := it.bodyPart
            gifUrl := it.gifUrl }))

/-- Embedding of `search_exercises` (`src/main.py:144-180`): the external
call runs only when the key is truthy AND the query is non-empty
(`if rapid_key and q`); otherwise, and after a caught transport failure,
the local fallback applies. -/
def search_exercises (rapid_key : Option String) (q : String)
    (up : ExUpstream) : Except HTTPError (List ExOut) :=
  if pyTruthy rapid_key && !(q == "") then
    match searchExercisesTryBody q up with
    | .ok items => .ok items
    | .httpExc e => .error e
    | .reqExc => .ok (exerciseFallback q)
  else
    .ok (exerciseFallback q)

/-! ## Diagnostics endpoint -/

/-- The process-wide store handle as seen by `/test`: when present, its
`name` attribute (a Mongo `Database` always has one). -/
structure DBHandle where
  name : String
deriving DecidableEq, Repr

/-- Outcome of the connectivity probe `db.list_collection_names()`:
either the collection names or a raised exception's message. -/
inductive ProbeOutcome where
  | ok (collections : List String)
  | exc (msg : String)
deriving DecidableEq, Repr

/-- The flat object returned by `/test`. -/
structure TestResponse where
  backend : String
  database : String
  database_url : Option String
  database_name : Option String
  connection_status : String
  collections : List String
deriving DecidableEq, Repr

/-- Embedding of `test_database` (`src/main.py:206-233`).  The function is
total: every probe outcome, including a raised exception, yields a
response — the exception message is truncated to 50 characters and
reported in the `database` field. -/
def test_database (db : Option DBHandle) (database_url_set : Bool)
    (probe : ProbeOutcome) : TestResponse :=
  match db with
  | none =>
      { backend := "✅ Running"
        database := "⚠️  Available but not initialized"
        database_url := none
        database_name := none
        connection_status := "Not Connected"
        collections := [] }
  | some h =>
      let base : TestResponse :=
        { backend := "✅ Running"
          database := "✅ Available"
          database_url := some (if database_url_set then "✅ Set" else "❌ Not Set")
          database_name := some h.name
          connection_status := "Connected"
          collections := [] }
      match probe with
      | .ok cols =>
          { base with collections := cols.take 10
                      database := "✅ Connected & Working" }
      | .exc e =>
          { base with database := "⚠️  Connected but Error: " ++ e.take 50 }

/-- The raw (unrounded) field-wise sum of a macro field over the stored
records of day `d`. -/
def daySum (s : Store) (d : String) (f : StoredEntry → ℚ) : ℚ :=
  ((s.docs.filter (fun e => e.day = d)).map f).sum

/-! ## Helper lemmas about the rounding rule -/

lemma rhalfEven_dist (x : ℚ) : |(rhalfEven x : ℚ) - x| ≤ 1/2 := by
  have h0 : (⌊x⌋ : ℚ) ≤ x := Int.floor_le x
  have h1 : x < (⌊x⌋ : ℚ) + 1 := Int.lt_floor_add_one x
  unfold rhalfEven
  split
  · rename_i h
    rw [abs_le]; constructor <;> linarith
  · split
    · rename_i h h2
      push_cast
      rw [abs_le]; constructor <;> linarith
    · split
      · rename_i h h2 h3
        have hr : x - (⌊x⌋ : ℚ) = 1/2 := le_antisymm (not_lt.mp h2) (not_lt.mp h)
        rw [abs_le]; constructor <;> linarith
      · rename_i h h2 h3
        have hr : x - (⌊x⌋ : ℚ) = 1/2 := le_antisymm (not_lt.mp h2) (not_lt.mp h)
        push_cast
        rw [abs_le]; constructor <;> linarith

lemma round1_dist (x : ℚ) : |round1 x - x| ≤ 1/20 := by
  unfold round1
  have h := rhalfEven_dist (10 * x)
  have h10 : |((rhalfEven (10 * x) : ℚ) - 10 * x) / 10| ≤ (1/2) / 10 := by
    rw [abs_div]
    have ha : |(10 : ℚ)| = 10 := by norm_num
    rw [ha]
    linarith
  calc |(rhalfEven (10 * x) : ℚ) / 10 - x|
      = |((rhalfEven (10 * x) : ℚ) - 10 * x) / 10| := by ring_nf
    _ ≤ (1/2) / 10 := h10
    _ = 1/20 := by norm_num

lemma round1_tenth (x : ℚ) : ∃ k : ℤ, round1 x = (k : ℚ) / 10 :=
  ⟨rhalfEven (10 * x), rfl⟩

lemma rhalfEven_tie (n : ℤ) (x : ℚ) (h : x = (n : ℚ) + 1/2) :
    rhalfEven x = if n % 2 = 0 then n else n + 1 := by
  have hf : ⌊x⌋ = n := by
    rw [h, add_comm, Int.floor_add_int]
    norm_num
  unfold rhalfEven
  simp only [hf]
  have hr : x - (n : ℚ) = 1/2 := by rw [h]; ring
  rw [hr]
  norm_num

/-- Round half to even sends exact half-way values (at the first decimal
place) to the even tenths digit. -/
lemma round1_tie (n : ℤ) (x : ℚ) (h : 10 * x = (n : ℚ) + 1/2) :
    round1 x = ((if n % 2 = 0 then n else n + 1 : ℤ) : ℚ) / 10 := by
  unfold round1
  rw [rhalfEven_tie n (10 * x) h]

/-! ## Claim theorems -/

/-- Claim C1: for every day string `d` and every collection of stored
`FoodEntry` records, the Day Summary Aggregator's totals equal the
field-wise sum — over each of calories, protein_g, carbohydrates_total_g,
fat_total_g — of exactly those records whose `day` field equals `d` by
exact string match, each sum rounded to 1 decimal place; records with any
other day value contribute nothing, and a record missing one of the four
numeric fields contributes 0 to that field's sum. -/
theorem get_day_summary_totals_eq_filtered_sums (d : String) (s : Store) :
    ((get_day_summary d s).1).totals =
      { calories := round1
          (((s.docs.filter (fun e => e.day = d)).map
            (fun e => e.calories.getD 0)).sum)
        protein_g := round1
          (((s.docs.filter (fun e => e.day = d)).map
            (fun e => e.protein_g.getD 0)).sum)
        carbohydrates_total_g := round1
          (((s.docs.filter (fun e => e.day = d)).map
            (fun e => e.carbohydrates_total_g.getD 0)).sum)
        fat_total_g := round1
          (((s.docs.filter (fun e => e.day = d)).map
            (fun e => e.fat_total_g.getD 0)).sum) } := rfl

/-- Claim C4: for every day string, calling the summary aggregator twice
with no intervening write to the store returns identical results on both
calls (the first call leaves the store untouched, and the second call on
the resulting store produces the same summary). -/
theorem get_day_summary_idempotent (d : String) (s : Store) :
    (get_day_summary d s).2 = s ∧
    (get_day_summary d ((get_day_summary d s).2)).1 = (get_day_summary d s).1 :=
  ⟨rfl, rfl⟩

/-- Claim C8: for every summary computation, each of the four field sums is
rounded to 1 decimal place before being returned in totals: each returned
total equals `round1` of the raw sum, is an integer multiple of one tenth,
differs from the raw sum by at most 1/20, and the rounding rule is round
half to even (Python's `round`), sending exact halves at the first decimal
place to the even tenths digit. -/
theorem get_day_summary_totals_rounded (d : String) (s : Store) :
    (((get_day_summary d s).1).totals.calories =
        round1 (daySum s d (fun e => e.calories.getD 0)) ∧
      (∃ k : ℤ, ((get_day_summary d s).1).totals.calories = (k : ℚ) / 10) ∧
      |((get_day_summary d s).1).totals.calories -
        daySum s d (fun e => e.calories.getD 0)| ≤ 1/20) ∧
    (((get_day_summary d s).1).totals.protein_g =
        round1 (daySum s d (fun e => e.protein_g.getD 0)) ∧
      (∃ k : ℤ, ((get_day_summary d s).1).totals.protein_g = (k : ℚ) / 10) ∧
      |((get_day_summary d s).1).totals.protein_g -
        daySum s d (fun e => e.protein_g.getD 0)| ≤ 1/20) ∧
    (((get_day_summary d s).1).totals.carbohydrates_total_g =
        round1 (daySum s d (fun e => e.carbohydrates_total_g.getD 0)) ∧
      (∃ k : ℤ, ((get_day_summary d s).1).totals.carbohydrates_total_g = (k : ℚ) / 10) ∧
      |((get_day_summary d s).1).totals.carbohydrates_total_g -
        daySum s d (fun e => e.carbohydrates_total_g.getD 0)| ≤ 1/20) ∧
    (((get_day_summary d s).1).totals.fat_total_g =
        round1 (daySum s d (fun e => e.fat_total_g.getD 0)) ∧
      (∃ k : ℤ, ((get_day_summary d s).1).totals.fat_total_g = (k : ℚ) / 10) ∧
      |((get_day_summary d s).1).totals.fat_total_g -
        daySum s d (fun e => e.fat_total_g.getD 0)| ≤ 1/20) ∧
    (∀ (x : ℚ) (n : ℤ), 10 * x = (n : ℚ) + 1/2 →
      round1 x = ((if n % 2 = 0 then n else n + 1 : ℤ) : ℚ) / 10) :=
  ⟨⟨rfl, round1_tenth _, round1_dist _⟩,
   ⟨rfl, round1_tenth _, round1_dist _⟩,
   ⟨rfl, round1_tenth _, round1_dist _⟩,
   ⟨rfl, round1_tenth _, round1_dist _⟩,
   fun x n h => round1_tie n x h⟩

/-- Witness for C8 at a concrete half-way input: the raw sum 0.25 (a tie
at the first decimal place) is rounded to 0.2, the even tenths digit. -/
theorem get_day_summary_totals_rounded_witness : round1 (1/4) = (2 : ℚ) / 10 := by
  have h := (get_day_summary_totals_rounded "2024-03-01"
    { docs := [], nextId := 0 }).2.2.2.2 (1/4) 2 (by norm_num)
  simpa using h

/-- Counterexample to Claim C2 as stated: a diary-write request in which
the `calories` macro is missing is rejected by the `DiaryFoodCreate`
validation (no entry is written), rather than having `calories` default
to 0 — so not all four macro numbers default when missing. -/
theorem parse_missing_calories_rejected :
    parseDiaryFoodCreate
      { food_name := some "Apple", calories := none,
        protein_g := some (1/2), carbohydrates_total_g := some 25,
        fat_total_g := some (3/10), consumed_at := none } = none := rfl

/-- Claim C2 (amended): for every diary-write request, the add-entry
operation accepts a food name and a calories value (both required —
a request missing either is rejected by input validation), with the
protein, carbohydrate and fat macros defaulting to 0 when missing, and an
optional day string defaulting to the current date (also when empty); it
writes exactly one new `FoodEntry` with those six fields and returns the
store-assigned identifier together with the freshly recomputed
`DaySummary` for that entry's day. -/
theorem add_food_writes_entry (raw : RawDiaryFood) (n : String) (c : ℚ)
    (today : String) (s : Store)
    (h1 : raw.food_name = some n) (h2 : raw.calories = some c) :
    ∃ item : DiaryFoodCreate,
      parseDiaryFoodCreate raw = some item ∧
      item = { food_name := n, calories := c,
               protein_g := raw.protein_g.getD 0,
               carbohydrates_total_g := raw.carbohydrates_total_g.getD 0,
               fat_total_g := raw.fat_total_g.getD 0,
               consumed_at := raw.consumed_at } ∧
      (add_food_to_diary today item s).2.docs =
        s.docs ++
          [{ oid := s.nextId, food_name := n, calories := some c,
             protein_g := some (raw.protein_g.getD 0),
             carbohydrates_total_g := some (raw.carbohydrates_total_g.getD 0),
             fat_total_g := some (raw.fat_total_g.getD 0),
             day := match raw.consumed_at with
                    | some dd => if dd = "" then today else dd
                    | none => today }] ∧
      (add_food_to_diary today item s).2.nextId = s.nextId + 1 ∧
      (add_food_to_diary today item s).1.inserted_id = s.nextId ∧
      (add_food_to_diary today item s).1.summary =
        (get_day_summary
          (match raw.consumed_at with
           | some dd => if dd = "" then today else dd
           | none => today)
          ((add_food_to_diary today item s).2)).1 := by
  cases raw with
  | mk fn cal p cb ft ca =>
    dsimp only at h1 h2
    subst h1
    subst h2
    exact ⟨_, rfl, rfl, rfl, rfl, rfl, rfl⟩

/-- Witness for the amended C2 at a concrete request: a body with only
`food_name`, `calories` and `consumed_at` present parses with the three
remaining macros defaulted to 0. -/
theorem add_food_writes_entry_witness :
    parseDiaryFoodCreate
      { food_name := some "Apple", calories := some 95,
        protein_g := none, carbohydrates_total_g := none,
        fat_total_g := none, consumed_at := some "2024-03-01" } =
      some { food_name := "Apple", calories := 95, protein_g := 0,
             carbohydrates_total_g := 0, fat_total_g := 0,
             consumed_at := some "2024-03-01" } := by
  obtain ⟨item, hp, hi, -, -, -, -⟩ :=
    add_food_writes_entry
      { food_name := some "Apple", calories := some 95,
        protein_g := none, carbohydrates_total_g := none,
        fat_total_g := none, consumed_at := some "2024-03-01" }
      "Apple" 95 "2024-05-05" { docs := [], nextId := 0 } rfl rfl
  rw [hp, hi]
  rfl

/-- Claim C3: round-trip — for every `FoodEntry` written with an explicit
(non-empty) day string `d`, a subsequent summary request for that same day
string includes the written entry in the returned entries list, and its
macro values enter the returned totals (each total is the rounded sum of
the previously stored matching records' field plus the new entry's
value). -/
theorem add_then_summary_round_trip (today d : String)
    (item : DiaryFoodCreate) (s : Store)
    (h1 : item.consumed_at = some d) (h2 : d ≠ "") :
    ({ oid := toString s.nextId, food_name := item.food_name,
       calories := some item.calories, protein_g := some item.protein_g,
       carbohydrates_total_g := some item.carbohydrates_total_g,
       fat_total_g := some item.fat_total_g, day := d } : OutEntry) ∈
      ((get_day_summary d ((add_food_to_diary today item s).2)).1).entries ∧
    ((get_day_summary d ((add_food_to_diary today item s).2)).1).totals =
      { calories :=
          round1 (daySum s d (fun e => e.calories.getD 0) + item.calories)
        protein_g :=
          round1 (daySum s d (fun e => e.protein_g.getD 0) + item.protein_g)
        carbohydrates_total_g :=
          round1 (daySum s d (fun e => e.carbohydrates_total_g.getD 0) +
            item.carbohydrates_total_g)
        fat_total_g :=
          round1 (daySum s d (fun e => e.fat_total_g.getD 0) +
            item.fat_total_g) } := by
  obtain ⟨fn, cal, p, cb, ft, ca⟩ := item
  dsimp only at h1
  subst h1
  simp only [add_food_to_diary, create_document, get_day_summary,
    get_documents, daySum, if_neg h2]
  constructor
  · simp [StoredEntry.toOut, List.filter_append, List.mem_append]
  · simp [Totals.mk.injEq, List.filter_append, List.map_append,
      List.sum_append, List.filter_cons]

/-- Witness for C3 at a concrete write: adding an Apple entry dated
"2024-03-01" to an empty store and summarizing that day returns an entries
list containing the written entry. -/
theorem add_then_summary_round_trip_witness :
    ({ oid := toString (0 : Nat), food_name := "Apple",
       calories := some 95, protein_g := some (1/2),
       carbohydrates_total_g := some 25, fat_total_g := some (3/10),
       day := "2024-03-01" } : OutEntry) ∈
      ((get_day_summary "2024-03-01"
        ((add_food_to_diary "2024-05-05"
          { food_name := "Apple", calories := 95, protein_g := 1/2,
            carbohydrates_total_g := 25, fat_total_g := 3/10,
            consumed_at := some "2024-03-01" }
          { docs := [], nextId := 0 }).2)).1).entries :=
  (add_then_summary_round_trip "2024-05-05" "2024-03-01"
    { food_name := "Apple", calories := 95, protein_g := 1/2,
      carbohydrates_total_g := 25, fat_total_g := 3/10,
      consumed_at := some "2024-03-01" }
    { docs := [], nextId := 0 } rfl (by decide)).1

/-- Claim C5: with credentials configured, a non-success (non-200) upstream
response surfaces to the caller as a 502 gateway failure carrying the
upstream body truncated to 120 characters (the raised `HTTPException` is
not caught by the surrounding `except requests.RequestException`), while a
transport-level failure surfaces no error and silently falls back to the
local sample data — for both the food and the exercise search. -/
theorem search_upstream_error_taxonomy (app_id app_key rapid_key : Option String)
    (q : String) (status : Nat) (text : String)
    (foods : List NutriFood) (data : List ExFood)
    (hid : pyTruthy app_id = true) (hkey : pyTruthy app_key = true)
    (hr : pyTruthy rapid_key = true) (hq : q ≠ "") (hs : status ≠ 200) :
    search_food app_id app_key q (.response status text foods) =
      .error { status_code := 502
               detail := "Nutritionix error: " ++ text.take 120 } ∧
    search_exercises rapid_key q (.response status text data) =
      .error { status_code := 502
               detail := "ExerciseDB error: " ++ text.take 120 } ∧
    search_food app_id app_key q .transportError = .ok (foodFallback q) ∧
    search_exercises rapid_key q .transportError = .ok (exerciseFallback q) := by
  have hqb : (q == "") = false := beq_eq_false_iff_ne.mpr hq
  refine ⟨?_, ?_, ?_, ?_⟩ <;>
    simp [search_food, search_exercises, searchFoodTryBody,
      searchExercisesTryBody, hid, hkey, hr, hqb, hs]

/-- Witness for C5 at concrete inputs: a 500 upstream response with body
"boom" yields the 502 gateway error for the food search. -/
theorem search_upstream_error_taxonomy_witness :
    search_food (some "id") (some "key") "apple"
      (.response 500 "boom" []) =
      .error { status_code := 502
               detail := "Nutritionix error: " ++ String.take "boom" 120 } :=
  (search_upstream_error_taxonomy (some "id") (some "key") (some "rk")
    "apple" 500 "boom" [] [] rfl rfl rfl (by decide) (by decide)).1

/-- Claim C6: for every non-empty food-search query without credentials,
the result is the fixed 3-item sample list filtered by case-insensitive
substring match on `food_name`; when no sample item matches, the entire
unfiltered 3-item sample list is returned rather than an empty result. -/
theorem search_food_no_credentials_fallback (q : String)
    (app_id app_key : Option String) (up : NutriUpstream)
    (hq : q ≠ "")
    (hcred : pyTruthy app_id = false ∨ pyTruthy app_key = false) :
    search_food app_id app_key q up =
      .ok (if foodSample.filter
             (fun s => strContains (strLower (s.food_name.getD "")) (strLower q)) = []
           then foodSample
           else foodSample.filter
             (fun s => strContains (strLower (s.food_name.getD "")) (strLower q))) ∧
    foodSample.length = 3 := by
  refine ⟨?_, rfl⟩
  rcases hcred with h | h <;> simp [search_food, foodFallback, h]

/-- Witness for C6 at a concrete no-match query: "zzz" matches no sample
item, so the full 3-item sample list comes back. -/
theorem search_food_no_credentials_fallback_witness :
    search_food none none "zzz" (.response 200 "" []) = .ok foodSample := by
  have h := (search_food_no_credentials_fallback "zzz" none none
    (.response 200 "" []) (by decide) (Or.inl rfl)).1
  have hc : foodSample.filter
      (fun s => strContains (strLower (s.food_name.getD "")) (strLower "zzz")) = [] := by
    decide
  rw [h, hc]
  simp

/-- Claim C7: an empty exercise query skips the external call and returns
the full 3-item sample list unfiltered, whatever the credentials and the
upstream behaviour; filtering applies only to a non-empty query when the
credentials path was not taken. -/
theorem search_exercises_empty_query (rapid_key : Option String)
    (q : String) (up : ExUpstream) :
    search_exercises rapid_key "" up = .ok exerciseSample ∧
    exerciseSample.length = 3 ∧
    (pyTruthy rapid_key = false → q ≠ "" →
      search_exercises rapid_key q up =
        .ok (exerciseSample.filter
          (fun s => strContains (strLower (s.name.getD "")) (strLower q)))) := by
  refine ⟨?_, rfl, ?_⟩
  · simp [search_exercises, exerciseFallback]
  · intro hk hq
    have hqb : (q == "") = false := beq_eq_false_iff_ne.mpr hq
    simp [search_exercises, exerciseFallback, hk, hq]

/-- Witness for C7 at concrete inputs: with the key set and an empty query
the full sample list is returned; without a key, the query "a" filters the
sample list (keeping Squat and Plank). -/
theorem search_exercises_empty_query_witness :
    search_exercises (some "rk") "" .transportError = .ok exerciseSample ∧
    search_exercises none "a" .transportError =
      .ok [{ name := some "Squat", target := some "gambe",
             equipment := some "body weight", bodyPart := some "gambe" },
           { name := some "Plank", target := some "core",
             equipment := some "tappetino", bodyPart := some "addome" }] := by
  constructor
  · exact (search_exercises_empty_query (some "rk") "x" .transportError).1
  · have h := (search_exercises_empty_query none "a" .transportError).2.2
      rfl (by decide)
    have hc : exerciseSample.filter
        (fun s => strContains (strLower (s.name.getD "")) (strLower "a")) =
        [{ name := some "Squat", target := some "gambe",
           equipment := some "body weight", bodyPart := some "gambe" },
         { name := some "Plank", target := some "core",
           equipment := some "tappetino", bodyPart := some "addome" }] := by
      decide
    rw [h, hc]

/-- Claim C10 (implicit): for every non-empty exercise query on the
no-credentials (or post-transport-failure) fallback path whose
case-insensitive substring filter matches none of the three sample
exercises, the returned items list is empty — unlike the food-search
fallback, which on the analogous no-match input returns the full sample
list. -/
theorem search_exercises_no_match_empty (q : String)
    (up : ExUpstream) (upf : NutriUpstream) (rapid_key : Option String)
    (hq : q ≠ "")
    (hfil : exerciseSample.filter
      (fun s => strContains (strLower (s.name.getD "")) (strLower q)) = []) :
    search_exercises none q up = .ok [] ∧
    (pyTruthy rapid_key = true →
      search_exercises rapid_key q .transportError = .ok []) ∧
    (foodSample.filter
        (fun s => strContains (strLower (s.food_name.getD "")) (strLower q)) = [] →
      search_food none none q upf = .ok foodSample) := by
  have hqb : (q == "") = false := beq_eq_false_iff_ne.mpr hq
  refine ⟨?_, ?_, ?_⟩
  · simp [search_exercises, exerciseFallback, pyTruthy, hq, hfil]
  · intro hk
    simp [search_exercises, searchExercisesTryBody, exerciseFallback,
      hk, hqb, hq, hfil]
  · intro hfood
    simp [search_food, foodFallback, pyTruthy, hfood]

/-- Witness for C10 at the concrete query "zzz": no sample exercise
matches, the exercise fallback returns an empty list, while the food
fallback on the same query returns the full food sample list. -/
theorem search_exercises_no_match_empty_witness :
    search_exercises none "zzz" .transportError = .ok [] ∧
    search_exercises (some "rk") "zzz" .transportError = .ok [] ∧
    search_food none none "zzz" .transportError = .ok foodSample := by
  have h := search_exercises_no_match_empty "zzz" .transportError
    .transportError (some "rk") (by decide) (by decide)
  exact ⟨h.1, h.2.1 rfl, h.2.2 (by decide)⟩

/-- Claim C9: the diagnostics endpoint never propagates an exception —
`test_database` is a total function of the probe outcome, and a probe that
raises is reported as an error string truncated to 50 characters in the
`database` field (all other fields keeping their connected values); when no
store handle is configured, the response reports the database as not
initialized ("⚠️  Available but not initialized") and `connection_status`
as "Not Connected"; a successful probe reports at most the first 10
collection names. -/
theorem test_database_total_and_reports (u : Bool) (p : ProbeOutcome) :
    (∀ (hdb : DBHandle) (msg : String),
      test_database (some hdb) u (.exc msg) =
        { backend := "✅ Running"
          database := "⚠️  Connected but Error: " ++ msg.take 50
          database_url := some (if u then "✅ Set" else "❌ Not Set")
          database_name := some hdb.name
          connection_status := "Connected"
          collections := [] }) ∧
    (∀ (hdb : DBHandle) (cols : List String),
      test_database (some hdb) u (.ok cols) =
        { backend := "✅ Running"
          database := "✅ Connected & Working"
          database_url := some (if u then "✅ Set" else "❌ Not Set")
          database_name := some hdb.name
          connection_status := "Connected"
          collections := cols.take 10 }) ∧
    test_database none u p =
      { backend := "✅ Running"
        database := "⚠️  Available but not initialized"
        database_url := none
        database_name := none
        connection_status := "Not Connected"
        collections := [] } :=
  ⟨fun _ _ => rfl, fun _ _ => rfl, rfl⟩
